import Mathlib

/-!
Verification of the PyOxidizer resource collection, placement-policy and
packaging engine (`pyoxidizer/src/py_packaging/embedded_resource.rs` and
`pyoxidizer/src/py_packaging/standalone_distribution.rs`).

Rust `BTreeMap<String, V>` values are embedded as key-sorted association
lists (`mapInsert` / `mapLookup` below); `BTreeSet<String>` values are
embedded as `Finset String`.  Fallible operations (`anyhow::Result`) are
embedded as `Except String`.  In every embedded operation each fallible
step precedes the first state mutation, so the state-passing `Except`
embedding agrees with the Rust `&mut self` semantics: an error leaves the
collection unchanged.

The `PythonResourceCollector` type and its methods live in the repository's
`python-packaging` crate, whose sources are not available here; those
definitions are modelled from the specification (each carries a doc comment
starting with `Modelled from the spec:`).  Everything else is translated
directly from the two Rust source files.
-/

/-- Rust `python_packaging::resource::DataLocation`: bytes either referenced by
filesystem path or held in memory. -/
inductive DataLocation where
  | path (p : String)
  | memory (data : List Nat)
deriving DecidableEq

/-- Rust `DataLocation::resolve`: in-memory data resolves to itself; path data is
read through a filesystem oracle `fs` (file reads are external I/O). -/
def DataLocation.resolve (fs : String → Option (List Nat)) : DataLocation → Except String (List Nat)
  | DataLocation.memory data => Except.ok data
  | DataLocation.path p =>
    match fs p with
    | some data => Except.ok data
    | none => Except.error ("unable to read " ++ p)

/-- Rust `python_packaging::resource::LibraryDependency` (field set visible from
`LinkEntry::to_library_dependency` in standalone_distribution.rs). -/
structure LibraryDependency where
  name : String
  static_library : Option DataLocation
  dynamic_library : Option DataLocation
  framework : Bool
  system : Bool
deriving DecidableEq

/-- Rust `python_packaging::resource::PythonExtensionModule` (field set visible
from the constructions in embedded_resource.rs tests). -/
structure PythonExtensionModule where
  name : String
  init_fn : Option String
  extension_file_suffix : String
  shared_library : Option DataLocation
  object_file_data : List DataLocation
  is_package : Bool
  link_libraries : List LibraryDependency
  is_stdlib : Bool
  builtin_default : Bool
  required : Bool
  variant : Option String
deriving DecidableEq

/-- Rust `python_packaging::resource_collection::ConcreteResourceLocation`. -/
inductive ConcreteResourceLocation where
  | inMemory
  | relativePath (pfx : String)
deriving DecidableEq

/-- Rust `python_packaging::policy::PythonResourcesPolicy`. -/
inductive PythonResourcesPolicy where
  | inMemoryOnly
  | filesystemRelativeOnly (pfx : String)
  | preferInMemoryFallbackFilesystemRelative (pfx : String)
deriving DecidableEq

/-- Rust `super::binary::LibpythonLinkMode` (variants visible from usage). -/
inductive LibpythonLinkMode where
  | static
  | dynamic
deriving DecidableEq

/-- Key-sorted association-list embedding of `BTreeMap<String, V>` insert:
insert-or-replace keyed on the first component, keeping keys in ascending
order so that iteration order matches the Rust map. -/
def mapInsert {α : Type} (k : String) (v : α) : List (String × α) → List (String × α)
  | [] => [(k, v)]
  | p :: rest =>
    if k < p.1 then (k, v) :: p :: rest
    else if k = p.1 then (k, v) :: rest
    else p :: mapInsert k v rest

/-- Rust `BTreeMap<String, V>` lookup on the association-list embedding. -/
def mapLookup {α : Type} (k : String) : List (String × α) → Option α
  | [] => none
  | p :: rest => if p.1 = k then some p.2 else mapLookup k rest

theorem mapLookup_mapInsert_self {α : Type} (k : String) (v : α) (l : List (String × α)) :
    mapLookup k (mapInsert k v l) = some v := by
  induction l with
  | nil => simp [mapInsert, mapLookup]
  | cons p rest ih =>
    by_cases h1 : k < p.1
    · simp [mapInsert, mapLookup, h1]
    · by_cases h2 : k = p.1
      · simp [mapInsert, mapLookup, h1, h2]
      · have hne : p.1 ≠ k := fun h => h2 h.symm
        simp [mapInsert, mapLookup, h1, h2, hne, ih]

theorem mapLookup_mapInsert_ne {α : Type} {k k' : String} (v : α) (l : List (String × α))
    (h : k' ≠ k) : mapLookup k' (mapInsert k v l) = mapLookup k' l := by
  have h' : k ≠ k' := Ne.symm h
  induction l with
  | nil => simp [mapInsert, mapLookup, h']
  | cons p rest ih =>
    by_cases h1 : k < p.1
    · simp [mapInsert, mapLookup, h1, h']
    · by_cases h2 : k = p.1
      · subst h2
        simp [mapInsert, mapLookup, h1, h']
      · simp only [mapInsert, if_neg h1, if_neg h2, mapLookup]
        by_cases h3 : p.1 = k'
        · simp [mapLookup, h3]
        · simp [mapLookup, h3, ih]

/-- Rust `ExtensionModuleBuildState` (embedded_resource.rs): state necessary to
link an extension module into libpython. -/
structure ExtensionModuleBuildState where
  init_fn : Option String
  link_object_files : List DataLocation
  link_frameworks : Finset String
  link_system_libraries : Finset String
  link_static_libraries : Finset String
  link_dynamic_libraries : Finset String
  link_external_libraries : Finset String
deriving DecidableEq

/-- Modelled from the spec: one record of the generic resource mapping.
The spec describes records as carrying named facets that are individually
overwritten on re-add ("re-adding a facet for an existing name overwrites
that facet, it does not duplicate the record"), each facet tied to a
concrete location.  The facets modelled are the ones reachable from the
embedded operations: the extension-module-as-dynamic-library facets (one
per location kind) and the standalone shared-library facets. -/
structure PrePackagedResource where
  name : String
  in_memory_extension_module_shared_library : Option (List Nat × Bool × List String)
  relative_path_extension_module : Option (String × DataLocation)
  in_memory_shared_library : Option DataLocation
  relative_path_shared_library : Option (String × DataLocation)
deriving DecidableEq

/-- A fresh resource record with no facets populated. -/
def PrePackagedResource.empty (name : String) : PrePackagedResource :=
  { name := name
    in_memory_extension_module_shared_library := none
    relative_path_extension_module := none
    in_memory_shared_library := none
    relative_path_shared_library := none }

/-- Modelled from the spec: `python_packaging::resource_collection::PythonResourceCollector`,
owner of the generic resource record mapping, bound to a resources policy
and a cache tag at construction. -/
structure PythonResourceCollector where
  policy : PythonResourcesPolicy
  cache_tag : String
  resources : List (String × PrePackagedResource)
deriving DecidableEq

/-- Modelled from the spec: `PythonResourceCollector::add_shared_library`
registers a standalone shared-library resource under `name` at the given
concrete location, inserting or overwriting that facet of the record. -/
def PythonResourceCollector.add_shared_library (c : PythonResourceCollector) (name : String)
    (data : DataLocation) (location : ConcreteResourceLocation) : PythonResourceCollector :=
  let r0 := (mapLookup name c.resources).getD (PrePackagedResource.empty name)
  let r1 :=
    match location with
    | ConcreteResourceLocation.inMemory => { r0 with in_memory_shared_library := some data }
    | ConcreteResourceLocation.relativePath pfx =>
      { r0 with relative_path_shared_library := some (pfx, data) }
  { c with resources := mapInsert name r1 c.resources }

/-- Modelled from the spec:
`PythonResourceCollector::add_in_memory_python_extension_module_shared_library`
records the extension module for in-memory loading (shared-library bytes
embedded), with its package flag and shared-library dependency names. -/
def PythonResourceCollector.add_in_memory_python_extension_module_shared_library
    (c : PythonResourceCollector) (name : String) (is_package : Bool) (data : List Nat)
    (depends : List String) : PythonResourceCollector :=
  let r0 := (mapLookup name c.resources).getD (PrePackagedResource.empty name)
  let r1 := { r0 with in_memory_extension_module_shared_library := some (data, is_package, depends) }
  { c with resources := mapInsert name r1 c.resources }

/-- Modelled from the spec:
`PythonResourceCollector::add_relative_path_python_extension_module` records
the extension module for filesystem-relative loading under `pfx`; per the
spec's error contract it fails when the module lacks shared-library bytes. -/
def PythonResourceCollector.add_relative_path_python_extension_module
    (c : PythonResourceCollector) (em : PythonExtensionModule) (pfx : String) :
    Except String PythonResourceCollector :=
  match em.shared_library with
  | none => Except.error ("extension module " ++ em.name ++ " lacks a shared library")
  | some sl =>
    let r0 := (mapLookup em.name c.resources).getD (PrePackagedResource.empty em.name)
    let r1 := { r0 with relative_path_extension_module := some (pfx, sl) }
    Except.ok { c with resources := mapInsert em.name r1 c.resources }

/-- Modelled from the spec:
`PythonResourceCollector::add_builtin_python_extension_module`.  Per the
spec, "Extension modules chosen for static linking live only [in the
ExtensionModuleBuildState mapping], never in the generic resource mapping";
the collector therefore records nothing for a builtin extension module. -/
def PythonResourceCollector.add_builtin_python_extension_module
    (c : PythonResourceCollector) (_em : PythonExtensionModule) : PythonResourceCollector :=
  c

/-- Rust `PrePackagedResources` (embedded_resource.rs): the generic resource
collector plus the separate bookkeeping for extension modules selected for
static linking into libpython. -/
structure PrePackagedResources where
  collector : PythonResourceCollector
  extension_module_states : List (String × ExtensionModuleBuildState)
deriving DecidableEq

/-- Rust `PrePackagedResources::new`. -/
def PrePackagedResources.new (policy : PythonResourcesPolicy) (cache_tag : String) :
    PrePackagedResources :=
  { collector := { policy := policy, cache_tag := cache_tag, resources := [] }
    extension_module_states := [] }

/-- Rust `PrePackagedResources::iter_resources`. -/
def PrePackagedResources.iter_resources (r : PrePackagedResources) :
    List (String × PrePackagedResource) :=
  r.collector.resources

/-- Rust `PrePackagedResources::builtin_extension_module_names`. -/
def PrePackagedResources.builtin_extension_module_names (r : PrePackagedResources) :
    List String :=
  r.extension_module_states.map Prod.fst

/-- The `BTreeSet::from_iter(filter_map ...)` pattern used by
`add_builtin_distribution_extension_module`: the set of names of the link
libraries satisfying a predicate. -/
def linkLibraryNames (links : List LibraryDependency) (p : LibraryDependency → Bool) :
    Finset String :=
  ((links.filter p).map LibraryDependency.name).toFinset

/-- Rust `PrePackagedResources::add_builtin_distribution_extension_module`
(embedded_resource.rs lines 130-186): record the module in the
extension-module build-state map (no policy check; object files are empty
when the module is builtin by default because its object code is already in
the core interpreter objects). -/
def PrePackagedResources.add_builtin_distribution_extension_module
    (r : PrePackagedResources) (module : PythonExtensionModule) :
    Except String PrePackagedResources :=
  Except.ok
    { r with
      extension_module_states :=
        mapInsert module.name
          { init_fn := module.init_fn
            link_object_files :=
              if module.builtin_default then [] else module.object_file_data
            link_frameworks := linkLibraryNames module.link_libraries (fun l => l.framework)
            link_system_libraries := linkLibraryNames module.link_libraries (fun l => l.system)
            link_static_libraries :=
              linkLibraryNames module.link_libraries (fun l => l.static_library.isSome)
            link_dynamic_libraries :=
              linkLibraryNames module.link_libraries (fun l => l.dynamic_library.isSome)
            link_external_libraries := ∅ }
          r.extension_module_states }

/-- The dependency loop of `add_in_memory_distribution_extension_module`
(embedded_resource.rs lines 199-212): register every dynamic-library
dependency as a standalone in-memory shared-library resource, accumulating
the dependency names. -/
def inMemoryDependStep (acc : PythonResourceCollector × List String)
    (link : LibraryDependency) : PythonResourceCollector × List String :=
  match link.dynamic_library with
  | some shared_library =>
    (acc.1.add_shared_library link.name shared_library ConcreteResourceLocation.inMemory,
      acc.2 ++ [link.name])
  | none => acc

def addInMemoryDepends (links : List LibraryDependency)
    (acc : PythonResourceCollector × List String) : PythonResourceCollector × List String :=
  links.foldl inMemoryDependStep acc

/-- Rust `PrePackagedResources::add_in_memory_distribution_extension_module`
(embedded_resource.rs lines 189-225). -/
def PrePackagedResources.add_in_memory_distribution_extension_module
    (fs : String → Option (List Nat)) (r : PrePackagedResources)
    (module : PythonExtensionModule) : Except String PrePackagedResources :=
  match module.shared_library with
  | none =>
    Except.error ("cannot add extension module " ++ module.name ++
      " for in-memory loading because it lacks shared library data")
  | some sl =>
    match sl.resolve fs with
    | Except.error e => Except.error e
    | Except.ok data =>
      let step := addInMemoryDepends module.link_libraries (r.collector, [])
      let c :=
        step.1.add_in_memory_python_extension_module_shared_library module.name false data step.2
      Except.ok { r with collector := c }

/-- The dependency loop of `add_relative_path_distribution_extension_module`
(embedded_resource.rs lines 243-256): install dynamic-library dependencies
next to the extension module. -/
def relativePathDependStep (pfx : String) (c : PythonResourceCollector)
    (link : LibraryDependency) : PythonResourceCollector :=
  match link.dynamic_library with
  | some shared_library =>
    c.add_shared_library link.name shared_library (ConcreteResourceLocation.relativePath pfx)
  | none => c

def addRelativePathDepends (links : List LibraryDependency) (pfx : String)
    (c : PythonResourceCollector) : PythonResourceCollector :=
  links.foldl (relativePathDependStep pfx) c

/-- Rust `PrePackagedResources::add_relative_path_distribution_extension_module`
(embedded_resource.rs lines 228-259). -/
def PrePackagedResources.add_relative_path_distribution_extension_module
    (pfx : String) (r : PrePackagedResources) (module : PythonExtensionModule) :
    Except String PrePackagedResources :=
  if module.shared_library.isNone then
    Except.error ("cannot add extension module " ++ module.name ++
      " as path relative because it lacks a shared library")
  else
    match r.collector.add_relative_path_python_extension_module module pfx with
    | Except.error e => Except.error e
    | Except.ok c =>
      Except.ok { r with collector := addRelativePathDepends module.link_libraries pfx c }

/-- Rust `PrePackagedResources::add_builtin_extension_module`
(embedded_resource.rs lines 266-292). -/
def PrePackagedResources.add_builtin_extension_module (r : PrePackagedResources)
    (module : PythonExtensionModule) : Except String PrePackagedResources :=
  if module.object_file_data.isEmpty then
    Except.error ("cannot add extension module " ++ module.name ++
      " as builtin because it lacks object file data")
  else
    Except.ok
      { collector := r.collector.add_builtin_python_extension_module module
        extension_module_states :=
          mapInsert module.name
            { init_fn := module.init_fn
              link_object_files := module.object_file_data
              link_frameworks := ∅
              link_system_libraries := ∅
              link_static_libraries := ∅
              link_dynamic_libraries := ∅
              link_external_libraries :=
                (module.link_libraries.map LibraryDependency.name).toFinset }
            r.extension_module_states }

/-- Rust `PrePackagedResources::add_in_memory_extension_module_shared_library`
(embedded_resource.rs lines 295-307). -/
def PrePackagedResources.add_in_memory_extension_module_shared_library
    (r : PrePackagedResources) (module : String) (is_package : Bool) (data : List Nat) :
    Except String PrePackagedResources :=
  Except.ok
    { r with
      collector :=
        r.collector.add_in_memory_python_extension_module_shared_library module is_package data [] }

/-- Rust `PrePackagedResources::add_relative_path_extension_module`
(embedded_resource.rs lines 310-317). -/
def PrePackagedResources.add_relative_path_extension_module (r : PrePackagedResources)
    (em : PythonExtensionModule) (pfx : String) : Except String PrePackagedResources :=
  match r.collector.add_relative_path_python_extension_module em pfx with
  | Except.error e => Except.error e
  | Except.ok c => Except.ok { r with collector := c }

/-- Rust `PrePackagedResources::filter_from_files` (embedded_resource.rs lines
319-343).  `resolve_resource_names_from_files` and `filter_btreemap` live
outside the available sources; modelled from the spec: the externally
resolved allow-set `resource_names` is taken as an argument, every resource
record whose `name` is not in the set and every extension-module build
state whose key is not in the set is dropped. -/
def PrePackagedResources.filter_from_files (resource_names : List String)
    (r : PrePackagedResources) : PrePackagedResources :=
  { collector :=
      { policy := r.collector.policy
        cache_tag := r.collector.cache_tag
        resources := r.collector.resources.filter (fun p => resource_names.contains p.2.name) }
    extension_module_states :=
      r.extension_module_states.filter (fun p => resource_names.contains p.1) }

/-- Rust `EmbeddedPythonResources` (embedded_resource.rs), restricted to the
extension-module build states (the prepared resource table and the bytecode
compilation performed by `package()` are external concerns not needed by
the claims about this type). -/
structure EmbeddedPythonResources where
  extension_modules : List (String × ExtensionModuleBuildState)
deriving DecidableEq

/-- Rust `EmbeddedPythonResources::builtin_extensions` (embedded_resource.rs
lines 418-429). -/
def EmbeddedPythonResources.builtin_extensions (r : EmbeddedPythonResources) :
    List (String × String) :=
  r.extension_modules.filterMap
    (fun p =>
      match p.2.init_fn with
      | some init_fn => some (p.1, init_fn)
      | none => none)

/-- Rust `LibpythonLinkingInfo` (embedded_resource.rs lines 382-390). -/
structure LibpythonLinkingInfo where
  object_files : List DataLocation
  link_libraries : Finset String
  link_frameworks : Finset String
  link_system_libraries : Finset String
  link_libraries_external : Finset String
deriving DecidableEq

/-- Rust `EmbeddedPythonResources::resolve_libpython_linking_info`
(embedded_resource.rs lines 449-509): object files are concatenated in
map-iteration order; static and dynamic library names both go into
`link_libraries`; frameworks, system libraries and external libraries stay
in their own sets. -/
def linkingInfoStep (info : LibpythonLinkingInfo)
    (p : String × ExtensionModuleBuildState) : LibpythonLinkingInfo :=
  { object_files := info.object_files ++ p.2.link_object_files
    link_libraries :=
      info.link_libraries ∪ p.2.link_static_libraries ∪ p.2.link_dynamic_libraries
    link_frameworks := info.link_frameworks ∪ p.2.link_frameworks
    link_system_libraries := info.link_system_libraries ∪ p.2.link_system_libraries
    link_libraries_external := info.link_libraries_external ∪ p.2.link_external_libraries }

def EmbeddedPythonResources.resolve_libpython_linking_info (r : EmbeddedPythonResources) :
    LibpythonLinkingInfo :=
  r.extension_modules.foldl linkingInfoStep
    { object_files := []
      link_libraries := ∅
      link_frameworks := ∅
      link_system_libraries := ∅
      link_libraries_external := ∅ }

/-- Rust `StandalonePythonExecutableBuilder` (standalone_distribution.rs),
restricted to the fields consulted by the extension-module placement
methods: the libpython link mode, the two platform capability flags, the
resources policy obtained from the packaging policy, and the resource
collection. -/
structure StandalonePythonExecutableBuilder where
  link_mode : LibpythonLinkMode
  supports_in_memory_dynamically_linked_extension_loading : Bool
  distribution_is_extension_module_file_loadable : Bool
  resources_policy : PythonResourcesPolicy
  resources : PrePackagedResources
deriving DecidableEq

/-- Rust `StandalonePythonExecutableBuilder::add_builtin_distribution_extension_module`
(standalone_distribution.rs lines 1561-1567). -/
def StandalonePythonExecutableBuilder.add_builtin_distribution_extension_module
    (b : StandalonePythonExecutableBuilder) (extension_module : PythonExtensionModule) :
    Except String StandalonePythonExecutableBuilder :=
  (b.resources.add_builtin_distribution_extension_module extension_module).map
    (fun r => { b with resources := r })

/-- Rust `StandalonePythonExecutableBuilder::add_in_memory_distribution_extension_module`
(standalone_distribution.rs lines 1569-1581). -/
def StandalonePythonExecutableBuilder.add_in_memory_distribution_extension_module
    (fs : String → Option (List Nat)) (b : StandalonePythonExecutableBuilder)
    (extension_module : PythonExtensionModule) :
    Except String StandalonePythonExecutableBuilder :=
  if !b.supports_in_memory_dynamically_linked_extension_loading then
    Except.error "loading extension modules from memory not supported by this build configuration"
  else
    (PrePackagedResources.add_in_memory_distribution_extension_module fs b.resources
        extension_module).map
      (fun r => { b with resources := r })

/-- Rust `StandalonePythonExecutableBuilder::add_relative_path_distribution_extension_module`
(standalone_distribution.rs lines 1583-1596). -/
def StandalonePythonExecutableBuilder.add_relative_path_distribution_extension_module
    (b : StandalonePythonExecutableBuilder) (pfx : String)
    (extension_module : PythonExtensionModule) :
    Except String StandalonePythonExecutableBuilder :=
  if b.distribution_is_extension_module_file_loadable then
    (PrePackagedResources.add_relative_path_distribution_extension_module pfx b.resources
        extension_module).map
      (fun r => { b with resources := r })
  else
    Except.error "loading extension modules from files not supported by this build configuration"

/-- Rust `StandalonePythonExecutableBuilder::add_distribution_extension_module`
(standalone_distribution.rs lines 1598-1650): the placement-policy dispatch
for distribution-provided extension modules. -/
def StandalonePythonExecutableBuilder.add_distribution_extension_module
    (fs : String → Option (List Nat)) (b : StandalonePythonExecutableBuilder)
    (extension_module : PythonExtensionModule) :
    Except String StandalonePythonExecutableBuilder :=
  if extension_module.builtin_default then
    b.add_builtin_distribution_extension_module extension_module
  else
    match b.resources_policy with
    | PythonResourcesPolicy.inMemoryOnly =>
      match b.link_mode with
      | LibpythonLinkMode.static => b.add_builtin_distribution_extension_module extension_module
      | LibpythonLinkMode.dynamic =>
        b.add_in_memory_distribution_extension_module fs extension_module
    | PythonResourcesPolicy.filesystemRelativeOnly pfx =>
      match b.link_mode with
      | LibpythonLinkMode.static => b.add_builtin_distribution_extension_module extension_module
      | LibpythonLinkMode.dynamic =>
        b.add_relative_path_distribution_extension_module pfx extension_module
    | PythonResourcesPolicy.preferInMemoryFallbackFilesystemRelative pfx =>
      match b.link_mode with
      | LibpythonLinkMode.static => b.add_builtin_distribution_extension_module extension_module
      | LibpythonLinkMode.dynamic =>
        match b.add_in_memory_distribution_extension_module fs extension_module with
        | Except.ok res => Except.ok res
        | Except.error _ => b.add_relative_path_distribution_extension_module pfx extension_module

/-- Paths are embedded as lists of components relative to the filesystem
root (the extraction root `absolute_path` is canonical, so it contains no
dot components).  `parse_dot` from the path_dedot crate removes `.`
components and resolves `..` against the parent, with `..` at the root
staying at the root. -/
def parseDot (comps : List String) : List String :=
  comps.foldl
    (fun acc c =>
      if c = "." then acc
      else if c = ".." then acc.dropLast
      else acc ++ [c])
    []

/-- One member of the distribution tar archive: its path (relative to the
archive root) and, when the member is a symbolic link, the link target
(relative to the member's directory). -/
structure TarEntry where
  path : List String
  link_name : Option (List String)
deriving DecidableEq

/-- Per-entry logic of `StandaloneDistribution::from_tar`
(standalone_distribution.rs lines 525-569).  On Windows
(`cfg!(target_family = "windows")`) a symlink entry is resolved: the copy
destination is the dedotted absolute entry path, the copy source is the
link target resolved against the destination's parent and dedotted, and an
integrity error is raised when the source does not fall under the
extraction root.  Every other entry (including symlink entries on
non-Windows targets) is handed to `tar::Entry::unpack_in`.  Returns
`some (source, dest)` for a recorded symlink and `none` for an unpacked
entry. -/
def processEntry (isWindows : Bool) (absolutePath : List String) (entry : TarEntry) :
    Except String (Option (List String × List String)) :=
  if entry.link_name.isSome && isWindows then
    match entry.link_name with
    | none => Except.ok none
    | some link_name =>
      let dest := parseDot (absolutePath ++ entry.path)
      if dest = [] then Except.error "unable to resolve parent"
      else
        let source := parseDot (dest.dropLast ++ link_name)
        if !List.isPrefixOf absolutePath source then
          Except.error "malicious symlink detected in archive"
        else Except.ok (some (source, dest))
  else Except.ok none

/-- The entry loop of `StandaloneDistribution::from_tar`: iterate over the
archive members, recording symlinks and unpacking everything else; the
first error aborts the whole extraction. -/
def processEntries (isWindows : Bool) (absolutePath : List String) :
    List TarEntry → Except String (List (List String × List String) × List (List String))
  | [] => Except.ok ([], [])
  | e :: rest =>
    match processEntry isWindows absolutePath e with
    | Except.error msg => Except.error msg
    | Except.ok (some sd) =>
      match processEntries isWindows absolutePath rest with
      | Except.error msg => Except.error msg
      | Except.ok (symlinks, unpacked) => Except.ok (sd :: symlinks, unpacked)
    | Except.ok none =>
      match processEntries isWindows absolutePath rest with
      | Except.error msg => Except.error msg
      | Except.ok (symlinks, unpacked) => Except.ok (symlinks, e.path :: unpacked)

/-- A filesystem effect of extraction: a member unpacked in place, or a
recorded symlink replayed as a file copy after all members are processed. -/
inductive ExtractAction where
  | unpacked (path : List String)
  | copied (source dest : List String)
deriving DecidableEq

/-- Rust `StandaloneDistribution::from_tar` (standalone_distribution.rs lines
510-603), restricted to its extraction effects: the entry loop runs first,
and only when it finishes without error are the recorded symlinks replayed
as file copies (lines 571-579).  An error from the loop therefore aborts
extraction before any symlink copy is performed. -/
def fromTarExtract (isWindows : Bool) (absolutePath : List String) (entries : List TarEntry) :
    Except String (List ExtractAction) :=
  match processEntries isWindows absolutePath entries with
  | Except.error msg => Except.error msg
  | Except.ok (symlinks, unpacked) =>
    Except.ok
      (unpacked.map ExtractAction.unpacked ++
        symlinks.map (fun sd => ExtractAction.copied sd.1 sd.2))

/-- View of the in-memory extension-module facet of the record named `n`. -/
def inMemExtView (c : PythonResourceCollector) (n : String) :
    Option (List Nat × Bool × List String) :=
  (mapLookup n c.resources).bind
    (fun r => r.in_memory_extension_module_shared_library)

/-- View of the relative-path extension-module facet of the record named `n`. -/
def relExtView (c : PythonResourceCollector) (n : String) : Option (String × DataLocation) :=
  (mapLookup n c.resources).bind (fun r => r.relative_path_extension_module)

/-- View of the in-memory standalone shared-library facet of the record
named `n`. -/
def shlibView (c : PythonResourceCollector) (n : String) : Option DataLocation :=
  (mapLookup n c.resources).bind (fun r => r.in_memory_shared_library)

theorem inMemExtView_add_shared_library (c : PythonResourceCollector) (name : String)
    (data : DataLocation) (loc : ConcreteResourceLocation) (n : String) :
    inMemExtView (c.add_shared_library name data loc) n = inMemExtView c n := by
  by_cases hn : n = name
  · subst hn
    cases h : mapLookup n c.resources with
    | none =>
      cases loc <;>
        simp [inMemExtView, PythonResourceCollector.add_shared_library, h,
          mapLookup_mapInsert_self, PrePackagedResource.empty]
    | some r =>
      cases loc <;>
        simp [inMemExtView, PythonResourceCollector.add_shared_library, h,
          mapLookup_mapInsert_self]
  · cases loc <;>
      simp [inMemExtView, PythonResourceCollector.add_shared_library,
        mapLookup_mapInsert_ne _ _ hn]

theorem relExtView_add_shared_library (c : PythonResourceCollector) (name : String)
    (data : DataLocation) (loc : ConcreteResourceLocation) (n : String) :
    relExtView (c.add_shared_library name data loc) n = relExtView c n := by
  by_cases hn : n = name
  · subst hn
    cases h : mapLookup n c.resources with
    | none =>
      cases loc <;>
        simp [relExtView, PythonResourceCollector.add_shared_library, h,
          mapLookup_mapInsert_self, PrePackagedResource.empty]
    | some r =>
      cases loc <;>
        simp [relExtView, PythonResourceCollector.add_shared_library, h,
          mapLookup_mapInsert_self]
  · cases loc <;>
      simp [relExtView, PythonResourceCollector.add_shared_library,
        mapLookup_mapInsert_ne _ _ hn]

theorem shlibView_add_shared_library_inMemory (c : PythonResourceCollector) (name : String)
    (data : DataLocation) (n : String) :
    shlibView (c.add_shared_library name data ConcreteResourceLocation.inMemory) n =
      if n = name then some data else shlibView c n := by
  by_cases hn : n = name
  · subst hn
    cases h : mapLookup n c.resources with
    | none =>
      simp [shlibView, PythonResourceCollector.add_shared_library, h,
        mapLookup_mapInsert_self, PrePackagedResource.empty]
    | some r =>
      simp [shlibView, PythonResourceCollector.add_shared_library, h,
        mapLookup_mapInsert_self]
  · simp [shlibView, PythonResourceCollector.add_shared_library, hn,
      mapLookup_mapInsert_ne _ _ hn]

theorem inMemExtView_add_in_memory_ext (c : PythonResourceCollector) (name : String)
    (is_package : Bool) (data : List Nat) (depends : List String) (n : String) :
    inMemExtView (c.add_in_memory_python_extension_module_shared_library name is_package data
        depends) n =
      if n = name then some (data, is_package, depends) else inMemExtView c n := by
  by_cases hn : n = name
  · subst hn
    cases h : mapLookup n c.resources with
    | none =>
      simp [inMemExtView,
        PythonResourceCollector.add_in_memory_python_extension_module_shared_library, h,
        mapLookup_mapInsert_self, PrePackagedResource.empty]
    | some r =>
      simp [inMemExtView,
        PythonResourceCollector.add_in_memory_python_extension_module_shared_library, h,
        mapLookup_mapInsert_self]
  · simp [inMemExtView,
      PythonResourceCollector.add_in_memory_python_extension_module_shared_library, hn,
      mapLookup_mapInsert_ne _ _ hn]

theorem relExtView_add_in_memory_ext (c : PythonResourceCollector) (name : String)
    (is_package : Bool) (data : List Nat) (depends : List String) (n : String) :
    relExtView (c.add_in_memory_python_extension_module_shared_library name is_package data
        depends) n = relExtView c n := by
  by_cases hn : n = name
  · subst hn
    cases h : mapLookup n c.resources with
    | none =>
      simp [relExtView,
        PythonResourceCollector.add_in_memory_python_extension_module_shared_library, h,
        mapLookup_mapInsert_self, PrePackagedResource.empty]
    | some r =>
      simp [relExtView,
        PythonResourceCollector.add_in_memory_python_extension_module_shared_library, h,
        mapLookup_mapInsert_self]
  · simp [relExtView,
      PythonResourceCollector.add_in_memory_python_extension_module_shared_library,
      mapLookup_mapInsert_ne _ _ hn]

theorem shlibView_add_in_memory_ext (c : PythonResourceCollector) (name : String)
    (is_package : Bool) (data : List Nat) (depends : List String) (n : String) :
    shlibView (c.add_in_memory_python_extension_module_shared_library name is_package data
        depends) n = shlibView c n := by
  by_cases hn : n = name
  · subst hn
    cases h : mapLookup n c.resources with
    | none =>
      simp [shlibView,
        PythonResourceCollector.add_in_memory_python_extension_module_shared_library, h,
        mapLookup_mapInsert_self, PrePackagedResource.empty]
    | some r =>
      simp [shlibView,
        PythonResourceCollector.add_in_memory_python_extension_module_shared_library, h,
        mapLookup_mapInsert_self]
  · simp [shlibView,
      PythonResourceCollector.add_in_memory_python_extension_module_shared_library,
      mapLookup_mapInsert_ne _ _ hn]

theorem relExtView_add_relative_path_ext {c c' : PythonResourceCollector}
    {em : PythonExtensionModule} {pfx : String}
    (h : c.add_relative_path_python_extension_module em pfx = Except.ok c') :
    (∃ sl, em.shared_library = some sl ∧ relExtView c' em.name = some (pfx, sl)) ∧
      (∀ n, n ≠ em.name → relExtView c' n = relExtView c n) ∧
      (∀ n, inMemExtView c' n = inMemExtView c n) := by
  cases hsl : em.shared_library with
  | none =>
    simp [PythonResourceCollector.add_relative_path_python_extension_module, hsl] at h
  | some sl =>
    simp only [PythonResourceCollector.add_relative_path_python_extension_module, hsl,
      Except.ok.injEq] at h
    subst h
    refine ⟨⟨sl, rfl, ?_⟩, ?_, ?_⟩
    · cases hlook : mapLookup em.name c.resources with
      | none => simp [relExtView, hlook, mapLookup_mapInsert_self, PrePackagedResource.empty]
      | some r => simp [relExtView, hlook, mapLookup_mapInsert_self]
    · intro n hn
      simp [relExtView, mapLookup_mapInsert_ne _ _ hn]
    · intro n
      by_cases hn : n = em.name
      · subst hn
        cases hlook : mapLookup em.name c.resources with
        | none =>
          simp [inMemExtView, hlook, mapLookup_mapInsert_self, PrePackagedResource.empty]
        | some r => simp [inMemExtView, hlook, mapLookup_mapInsert_self]
      · simp [inMemExtView, mapLookup_mapInsert_ne _ _ hn]

theorem addInMemoryDepends_cons (l : LibraryDependency) (rest : List LibraryDependency)
    (acc : PythonResourceCollector × List String) :
    addInMemoryDepends (l :: rest) acc = addInMemoryDepends rest (inMemoryDependStep acc l) :=
  rfl

theorem addRelativePathDepends_cons (l : LibraryDependency) (rest : List LibraryDependency)
    (pfx : String) (c : PythonResourceCollector) :
    addRelativePathDepends (l :: rest) pfx c =
      addRelativePathDepends rest pfx (relativePathDependStep pfx c l) :=
  rfl

theorem inMemExtView_inMemoryDependStep (acc : PythonResourceCollector × List String)
    (l : LibraryDependency) (n : String) :
    inMemExtView (inMemoryDependStep acc l).1 n = inMemExtView acc.1 n := by
  cases hdyn : l.dynamic_library with
  | none => simp [inMemoryDependStep, hdyn]
  | some sl => simp [inMemoryDependStep, hdyn, inMemExtView_add_shared_library]

theorem relExtView_inMemoryDependStep (acc : PythonResourceCollector × List String)
    (l : LibraryDependency) (n : String) :
    relExtView (inMemoryDependStep acc l).1 n = relExtView acc.1 n := by
  cases hdyn : l.dynamic_library with
  | none => simp [inMemoryDependStep, hdyn]
  | some sl => simp [inMemoryDependStep, hdyn, relExtView_add_shared_library]

theorem inMemExtView_addInMemoryDepends (links : List LibraryDependency)
    (acc : PythonResourceCollector × List String) (n : String) :
    inMemExtView (addInMemoryDepends links acc).1 n = inMemExtView acc.1 n := by
  induction links generalizing acc with
  | nil => simp [addInMemoryDepends]
  | cons l rest ih =>
    rw [addInMemoryDepends_cons]
    exact (ih _).trans (inMemExtView_inMemoryDependStep acc l n)

theorem relExtView_addInMemoryDepends (links : List LibraryDependency)
    (acc : PythonResourceCollector × List String) (n : String) :
    relExtView (addInMemoryDepends links acc).1 n = relExtView acc.1 n := by
  induction links generalizing acc with
  | nil => simp [addInMemoryDepends]
  | cons l rest ih =>
    rw [addInMemoryDepends_cons]
    exact (ih _).trans (relExtView_inMemoryDependStep acc l n)

theorem inMemExtView_relativePathDependStep (pfx : String) (c : PythonResourceCollector)
    (l : LibraryDependency) (n : String) :
    inMemExtView (relativePathDependStep pfx c l) n = inMemExtView c n := by
  cases hdyn : l.dynamic_library with
  | none => simp [relativePathDependStep, hdyn]
  | some sl => simp [relativePathDependStep, hdyn, inMemExtView_add_shared_library]

theorem relExtView_relativePathDependStep (pfx : String) (c : PythonResourceCollector)
    (l : LibraryDependency) (n : String) :
    relExtView (relativePathDependStep pfx c l) n = relExtView c n := by
  cases hdyn : l.dynamic_library with
  | none => simp [relativePathDependStep, hdyn]
  | some sl => simp [relativePathDependStep, hdyn, relExtView_add_shared_library]

theorem inMemExtView_addRelativePathDepends (links : List LibraryDependency) (pfx : String)
    (c : PythonResourceCollector) (n : String) :
    inMemExtView (addRelativePathDepends links pfx c) n = inMemExtView c n := by
  induction links generalizing c with
  | nil => simp [addRelativePathDepends]
  | cons l rest ih =>
    rw [addRelativePathDepends_cons]
    exact (ih _).trans (inMemExtView_relativePathDependStep pfx c l n)

theorem relExtView_addRelativePathDepends (links : List LibraryDependency) (pfx : String)
    (c : PythonResourceCollector) (n : String) :
    relExtView (addRelativePathDepends links pfx c) n = relExtView c n := by
  induction links generalizing c with
  | nil => simp [addRelativePathDepends]
  | cons l rest ih =>
    rw [addRelativePathDepends_cons]
    exact (ih _).trans (relExtView_relativePathDependStep pfx c l n)

theorem shlibView_inMemoryDependStep_isSome (acc : PythonResourceCollector × List String)
    (l : LibraryDependency) (n : String) (h : (shlibView acc.1 n).isSome = true) :
    (shlibView (inMemoryDependStep acc l).1 n).isSome = true := by
  cases hdyn : l.dynamic_library with
  | none => simpa [inMemoryDependStep, hdyn] using h
  | some sl =>
    simp only [inMemoryDependStep, hdyn]
    rw [shlibView_add_shared_library_inMemory]
    by_cases hn : n = l.name <;> simp [hn, h]

theorem shlibView_addInMemoryDepends_isSome (links : List LibraryDependency)
    (acc : PythonResourceCollector × List String) (n : String)
    (h : (shlibView acc.1 n).isSome = true) :
    (shlibView (addInMemoryDepends links acc).1 n).isSome = true := by
  induction links generalizing acc with
  | nil => simpa [addInMemoryDepends] using h
  | cons l rest ih =>
    rw [addInMemoryDepends_cons]
    exact ih _ (shlibView_inMemoryDependStep_isSome acc l n h)

theorem shlibView_addInMemoryDepends_of_mem (links : List LibraryDependency)
    (acc : PythonResourceCollector × List String) (link : LibraryDependency)
    (sl : DataLocation) (hmem : link ∈ links) (hdyn : link.dynamic_library = some sl) :
    (shlibView (addInMemoryDepends links acc).1 link.name).isSome = true := by
  induction links generalizing acc with
  | nil => cases hmem
  | cons l rest ih =>
    rw [addInMemoryDepends_cons]
    rcases List.mem_cons.mp hmem with hl | hl
    · subst hl
      apply shlibView_addInMemoryDepends_isSome
      simp only [inMemoryDependStep, hdyn]
      rw [shlibView_add_shared_library_inMemory]
      simp
    · exact ih _ hl

/-- Success characterization of
`PrePackagedResources::add_in_memory_distribution_extension_module`: on
success the module is recorded under the in-memory extension-module facet,
the relative-path extension-module facet of every record is untouched, and
every declared dynamic-library dependency is registered as a standalone
in-memory shared-library resource. -/
theorem add_in_memory_distribution_ok_views {fs : String → Option (List Nat)}
    {r r' : PrePackagedResources} {em : PythonExtensionModule}
    (h : PrePackagedResources.add_in_memory_distribution_extension_module fs r em =
      Except.ok r') :
    (inMemExtView r'.collector em.name).isSome = true ∧
      (∀ n, relExtView r'.collector n = relExtView r.collector n) ∧
      (∀ link ∈ em.link_libraries, ∀ sl, link.dynamic_library = some sl →
        (shlibView r'.collector link.name).isSome = true) ∧
      r'.extension_module_states = r.extension_module_states := by
  cases hsl : em.shared_library with
  | none => simp [PrePackagedResources.add_in_memory_distribution_extension_module, hsl] at h
  | some sl =>
    cases hres : sl.resolve fs with
    | error e =>
      simp [PrePackagedResources.add_in_memory_distribution_extension_module, hsl, hres] at h
    | ok data =>
      simp only [PrePackagedResources.add_in_memory_distribution_extension_module, hsl, hres,
        Except.ok.injEq] at h
      subst h
      refine ⟨?_, ?_, ?_, rfl⟩
      · rw [inMemExtView_add_in_memory_ext]
        simp
      · intro n
        rw [relExtView_add_in_memory_ext]
        exact relExtView_addInMemoryDepends _ _ n
      · intro link hmem sl' hdyn
        rw [shlibView_add_in_memory_ext]
        exact shlibView_addInMemoryDepends_of_mem _ _ link sl' hmem hdyn

/-- Success characterization of
`PrePackagedResources::add_relative_path_distribution_extension_module`:
on success the module is recorded under the relative-path extension-module
facet and the in-memory extension-module facet of every record is
untouched. -/
theorem add_relative_path_distribution_ok_views {pfx : String}
    {r r' : PrePackagedResources} {em : PythonExtensionModule}
    (h : PrePackagedResources.add_relative_path_distribution_extension_module pfx r em =
      Except.ok r') :
    (relExtView r'.collector em.name).isSome = true ∧
      (∀ n, inMemExtView r'.collector n = inMemExtView r.collector n) ∧
      r'.extension_module_states = r.extension_module_states := by
  cases hsl : em.shared_library with
  | none =>
    simp [PrePackagedResources.add_relative_path_distribution_extension_module, hsl] at h
  | some sl =>
    rw [PrePackagedResources.add_relative_path_distribution_extension_module] at h
    simp only [hsl, Option.isNone_some, Bool.false_eq_true, if_false] at h
    cases hadd : PythonResourceCollector.add_relative_path_python_extension_module r.collector
        em pfx with
    | error e => rw [hadd] at h; cases h
    | ok c =>
      rw [hadd] at h
      simp only [Except.ok.injEq] at h
      subst h
      obtain ⟨⟨sl', _, hview⟩, _, hinmem⟩ := relExtView_add_relative_path_ext hadd
      refine ⟨?_, ?_, rfl⟩
      · rw [relExtView_addRelativePathDepends, hview]
        rfl
      · intro n
        rw [inMemExtView_addRelativePathDepends]
        exact hinmem n

/-- Builder-level success characterization of
`add_in_memory_distribution_extension_module`: success implies the platform
capability flag was set and the underlying collection operation succeeded. -/
theorem sb_add_in_memory_ok_views {fs : String → Option (List Nat)}
    {b b' : StandalonePythonExecutableBuilder} {em : PythonExtensionModule}
    (h : b.add_in_memory_distribution_extension_module fs em = Except.ok b') :
    (inMemExtView b'.resources.collector em.name).isSome = true ∧
      ∀ n, relExtView b'.resources.collector n = relExtView b.resources.collector n := by
  rw [StandalonePythonExecutableBuilder.add_in_memory_distribution_extension_module] at h
  cases hsup : b.supports_in_memory_dynamically_linked_extension_loading with
  | false => rw [hsup] at h; cases h
  | true =>
    rw [hsup] at h
    simp only [Bool.not_true, Bool.false_eq_true, if_false] at h
    cases hadd : PrePackagedResources.add_in_memory_distribution_extension_module fs
        b.resources em with
    | error e => rw [hadd] at h; cases h
    | ok r' =>
      rw [hadd] at h
      simp only [Except.map, Except.ok.injEq] at h
      subst h
      obtain ⟨h1, h2, _, _⟩ := add_in_memory_distribution_ok_views hadd
      exact ⟨h1, h2⟩

/-- Builder-level success characterization of
`add_relative_path_distribution_extension_module`. -/
theorem sb_add_relative_path_ok_views {pfx : String}
    {b b' : StandalonePythonExecutableBuilder} {em : PythonExtensionModule}
    (h : b.add_relative_path_distribution_extension_module pfx em = Except.ok b') :
    (relExtView b'.resources.collector em.name).isSome = true ∧
      ∀ n, inMemExtView b'.resources.collector n = inMemExtView b.resources.collector n := by
  rw [StandalonePythonExecutableBuilder.add_relative_path_distribution_extension_module] at h
  cases hload : b.distribution_is_extension_module_file_loadable with
  | false => rw [hload] at h; cases h
  | true =>
    rw [hload] at h
    simp only [if_true] at h
    cases hadd : PrePackagedResources.add_relative_path_distribution_extension_module pfx
        b.resources em with
    | error e => rw [hadd] at h; cases h
    | ok r' =>
      rw [hadd] at h
      simp only [Except.map, Except.ok.injEq] at h
      subst h
      obtain ⟨h1, h2, _⟩ := add_relative_path_distribution_ok_views hadd
      exact ⟨h1, h2⟩

/-- C1: an extension module added through either add-builtin entry point
(`PrePackagedResources::add_builtin_distribution_extension_module` or
`PrePackagedResources::add_builtin_extension_module`) is recorded in the
`ExtensionModuleBuildState` mapping and leaves the generic resource record
mapping untouched: a module not previously in the generic mapping is still
absent from `iter_resources` afterwards (so it is reachable at neither an
`InMemory` nor a `RelativePath` location). -/
theorem claim_C1_builtin_never_in_resource_mapping (r : PrePackagedResources)
    (em : PythonExtensionModule)
    (hfresh : mapLookup em.name (PrePackagedResources.iter_resources r) = none) :
    (∀ r', r.add_builtin_distribution_extension_module em = Except.ok r' →
      r'.collector = r.collector ∧
      mapLookup em.name (PrePackagedResources.iter_resources r') = none ∧
      (mapLookup em.name r'.extension_module_states).isSome = true) ∧
    (∀ r', r.add_builtin_extension_module em = Except.ok r' →
      r'.collector = r.collector ∧
      mapLookup em.name (PrePackagedResources.iter_resources r') = none ∧
      (mapLookup em.name r'.extension_module_states).isSome = true) := by
  constructor
  · intro r' h
    simp only [PrePackagedResources.add_builtin_distribution_extension_module,
      Except.ok.injEq] at h
    subst h
    exact ⟨rfl, hfresh, by simp [mapLookup_mapInsert_self]⟩
  · intro r' h
    rw [PrePackagedResources.add_builtin_extension_module] at h
    cases hempty : em.object_file_data.isEmpty with
    | true => rw [hempty] at h; cases h
    | false =>
      rw [hempty] at h
      simp only [Bool.false_eq_true, if_false, Except.ok.injEq] at h
      subst h
      refine ⟨rfl, hfresh, by simp [mapLookup_mapInsert_self]⟩

/-- A sample extension module with object-file data and no shared library. -/
def emBuiltinSample : PythonExtensionModule :=
  { name := "foo.bar"
    init_fn := some "PyInit_bar"
    extension_file_suffix := ""
    shared_library := none
    object_file_data := [DataLocation.memory [42]]
    is_package := false
    link_libraries := []
    is_stdlib := true
    builtin_default := false
    required := false
    variant := none }

theorem claim_C1_witness :
    mapLookup emBuiltinSample.name
        (PrePackagedResources.iter_resources
          (PrePackagedResources.new PythonResourcesPolicy.inMemoryOnly "cpython-37")) = none ∧
      ((∀ r', (PrePackagedResources.new PythonResourcesPolicy.inMemoryOnly
            "cpython-37").add_builtin_distribution_extension_module emBuiltinSample =
            Except.ok r' →
          r'.collector =
              (PrePackagedResources.new PythonResourcesPolicy.inMemoryOnly
                "cpython-37").collector ∧
            mapLookup emBuiltinSample.name (PrePackagedResources.iter_resources r') = none ∧
            (mapLookup emBuiltinSample.name r'.extension_module_states).isSome = true) ∧
        (∀ r', (PrePackagedResources.new PythonResourcesPolicy.inMemoryOnly
            "cpython-37").add_builtin_extension_module emBuiltinSample = Except.ok r' →
          r'.collector =
              (PrePackagedResources.new PythonResourcesPolicy.inMemoryOnly
                "cpython-37").collector ∧
            mapLookup emBuiltinSample.name (PrePackagedResources.iter_resources r') = none ∧
            (mapLookup emBuiltinSample.name r'.extension_module_states).isSome = true)) :=
  ⟨rfl, claim_C1_builtin_never_in_resource_mapping _ emBuiltinSample rfl⟩

/-- C2: for every resources policy and every link mode, adding a
distribution extension module whose `builtin_default` flag is true through
`StandalonePythonExecutableBuilder::add_distribution_extension_module`
succeeds, records the module in the statically-linked (builtin)
extension-module build-state map, and leaves the generic resource
collector untouched. -/
theorem claim_C2_builtin_default_always_builtin (fs : String → Option (List Nat))
    (b : StandalonePythonExecutableBuilder) (em : PythonExtensionModule)
    (hbd : em.builtin_default = true) :
    ∃ b', b.add_distribution_extension_module fs em = Except.ok b' ∧
      b'.resources.collector = b.resources.collector ∧
      (mapLookup em.name b'.resources.extension_module_states).isSome = true := by
  simp only [StandalonePythonExecutableBuilder.add_distribution_extension_module, hbd,
    if_true, StandalonePythonExecutableBuilder.add_builtin_distribution_extension_module,
    PrePackagedResources.add_builtin_distribution_extension_module, Except.map]
  exact ⟨_, rfl, rfl, by simp [mapLookup_mapInsert_self]⟩

/-- A builder under `FilesystemRelativeOnly` policy and `Static` link mode,
used as a concrete instance. -/
def builderStaticSample : StandalonePythonExecutableBuilder :=
  { link_mode := LibpythonLinkMode.static
    supports_in_memory_dynamically_linked_extension_loading := false
    distribution_is_extension_module_file_loadable := true
    resources_policy := PythonResourcesPolicy.filesystemRelativeOnly "lib"
    resources := PrePackagedResources.new (PythonResourcesPolicy.filesystemRelativeOnly "lib")
      "cpython-37" }

/-- A distribution extension module flagged builtin-by-default. -/
def emBuiltinDefaultSample : PythonExtensionModule :=
  { name := "_abc"
    init_fn := some "PyInit__abc"
    extension_file_suffix := ""
    shared_library := none
    object_file_data := [DataLocation.path "_abc.o"]
    is_package := false
    link_libraries := []
    is_stdlib := true
    builtin_default := true
    required := true
    variant := none }

theorem claim_C2_witness :
    emBuiltinDefaultSample.builtin_default = true ∧
      ∃ b', builderStaticSample.add_distribution_extension_module (fun _ => none)
            emBuiltinDefaultSample = Except.ok b' ∧
          b'.resources.collector = builderStaticSample.resources.collector ∧
          (mapLookup emBuiltinDefaultSample.name
              b'.resources.extension_module_states).isSome = true :=
  ⟨rfl, claim_C2_builtin_default_always_builtin (fun _ => none) builderStaticSample
    emBuiltinDefaultSample rfl⟩

/-- C9: `PrePackagedResources::add_builtin_distribution_extension_module`
always succeeds and records a build state whose `link_object_files` is
empty when the module is builtin by default (its object code is already in
the core interpreter objects) and equals the module's declared
`object_file_data` otherwise. -/
theorem claim_C9_builtin_default_empty_object_files (r : PrePackagedResources)
    (em : PythonExtensionModule) :
    ∃ r', r.add_builtin_distribution_extension_module em = Except.ok r' ∧
      ∃ st, mapLookup em.name r'.extension_module_states = some st ∧
        st.init_fn = em.init_fn ∧
        st.link_object_files = (if em.builtin_default then [] else em.object_file_data) := by
  refine ⟨_, rfl, ?_⟩
  refine ⟨_, mapLookup_mapInsert_self _ _ _, rfl, rfl⟩

/-- C6: adding an in-memory or relative-path distribution extension module
whose shared-library payload is absent fails with the configuration-error
message from the source.  In both Rust functions the guard is the first
statement, before any mutation of the collection, which the state-passing
embedding reflects: an error returns no successor state, so the resource
records and the extension-module build states are those of the unmodified
input. -/
theorem claim_C6_missing_shared_library_fails (fs : String → Option (List Nat))
    (r : PrePackagedResources) (em : PythonExtensionModule) (pfx : String)
    (h : em.shared_library = none) :
    r.add_in_memory_distribution_extension_module fs em =
        Except.error ("cannot add extension module " ++ em.name ++
          " for in-memory loading because it lacks shared library data") ∧
      r.add_relative_path_distribution_extension_module pfx em =
        Except.error ("cannot add extension module " ++ em.name ++
          " as path relative because it lacks a shared library") := by
  constructor
  · simp [PrePackagedResources.add_in_memory_distribution_extension_module, h]
  · simp [PrePackagedResources.add_relative_path_distribution_extension_module, h]

/-- A distribution extension module with no shared-library payload. -/
def emNoSharedLibrarySample : PythonExtensionModule :=
  { name := "foo.bar"
    init_fn := none
    extension_file_suffix := ""
    shared_library := none
    object_file_data := []
    is_package := false
    link_libraries := []
    is_stdlib := false
    builtin_default := false
    required := false
    variant := none }

theorem claim_C6_witness :
    emNoSharedLibrarySample.shared_library = none ∧
      ((PrePackagedResources.new PythonResourcesPolicy.inMemoryOnly
            "cpython-37").add_in_memory_distribution_extension_module (fun _ => none)
            emNoSharedLibrarySample =
          Except.error ("cannot add extension module " ++ emNoSharedLibrarySample.name ++
            " for in-memory loading because it lacks shared library data") ∧
        (PrePackagedResources.new PythonResourcesPolicy.inMemoryOnly
            "cpython-37").add_relative_path_distribution_extension_module "lib"
            emNoSharedLibrarySample =
          Except.error ("cannot add extension module " ++ emNoSharedLibrarySample.name ++
            " as path relative because it lacks a shared library")) :=
  ⟨rfl, claim_C6_missing_shared_library_fails (fun _ => none)
    (PrePackagedResources.new PythonResourcesPolicy.inMemoryOnly "cpython-37")
    emNoSharedLibrarySample "lib" rfl⟩

/-- C3: under `Dynamic` link mode with policy
`PreferInMemoryFallbackFilesystemRelative(prefix)`, adding a
non-builtin-default distribution extension module attempts in-memory
placement first; exactly when that attempt errors the same module is
re-attempted at `RelativePath(prefix)`; on either successful outcome the
module's record holds exactly one of the two placements; the in-memory
error is discarded on successful fallback and an error is propagated only
when both attempts fail (the propagated error is the fallback's). -/
theorem claim_C3_prefer_in_memory_fallback (fs : String → Option (List Nat))
    (b : StandalonePythonExecutableBuilder) (em : PythonExtensionModule) (pfx : String)
    (hpol : b.resources_policy =
      PythonResourcesPolicy.preferInMemoryFallbackFilesystemRelative pfx)
    (hmode : b.link_mode = LibpythonLinkMode.dynamic)
    (hbd : em.builtin_default = false)
    (hfresh : mapLookup em.name b.resources.collector.resources = none) :
    (∀ b', b.add_in_memory_distribution_extension_module fs em = Except.ok b' →
      b.add_distribution_extension_module fs em = Except.ok b' ∧
        (inMemExtView b'.resources.collector em.name).isSome = true ∧
        relExtView b'.resources.collector em.name = none) ∧
    (∀ e1, b.add_in_memory_distribution_extension_module fs em = Except.error e1 →
      b.add_distribution_extension_module fs em =
          b.add_relative_path_distribution_extension_module pfx em ∧
        (∀ b', b.add_relative_path_distribution_extension_module pfx em = Except.ok b' →
          (relExtView b'.resources.collector em.name).isSome = true ∧
            inMemExtView b'.resources.collector em.name = none) ∧
        (∀ e2, b.add_relative_path_distribution_extension_module pfx em = Except.error e2 →
          b.add_distribution_extension_module fs em = Except.error e2)) := by
  have hrel0 : relExtView b.resources.collector em.name = none := by
    simp [relExtView, hfresh]
  have hinmem0 : inMemExtView b.resources.collector em.name = none := by
    simp [inMemExtView, hfresh]
  constructor
  · intro b' h
    obtain ⟨h1, h2⟩ := sb_add_in_memory_ok_views h
    refine ⟨?_, h1, (h2 em.name).trans hrel0⟩
    simp only [StandalonePythonExecutableBuilder.add_distribution_extension_module, hbd,
      Bool.false_eq_true, if_false, hpol, hmode, h]
  · intro e1 h
    refine ⟨?_, ?_, ?_⟩
    · simp only [StandalonePythonExecutableBuilder.add_distribution_extension_module, hbd,
        Bool.false_eq_true, if_false, hpol, hmode, h]
    · intro b' h2
      obtain ⟨h3, h4⟩ := sb_add_relative_path_ok_views h2
      exact ⟨h3, (h4 em.name).trans hinmem0⟩
    · intro e2 h2
      simp only [StandalonePythonExecutableBuilder.add_distribution_extension_module, hbd,
        Bool.false_eq_true, if_false, hpol, hmode, h, h2]

/-- A builder under the prefer-in-memory-fallback policy and dynamic link
mode whose target cannot load extension modules from memory. -/
def builderFallbackSample : StandalonePythonExecutableBuilder :=
  { link_mode := LibpythonLinkMode.dynamic
    supports_in_memory_dynamically_linked_extension_loading := false
    distribution_is_extension_module_file_loadable := true
    resources_policy := PythonResourcesPolicy.preferInMemoryFallbackFilesystemRelative "lib"
    resources := PrePackagedResources.new
      (PythonResourcesPolicy.preferInMemoryFallbackFilesystemRelative "lib") "cpython-37" }

/-- A non-builtin distribution extension module carrying shared-library
bytes. -/
def emDynamicSample : PythonExtensionModule :=
  { name := "zlib"
    init_fn := some "PyInit_zlib"
    extension_file_suffix := ".so"
    shared_library := some (DataLocation.memory [7])
    object_file_data := []
    is_package := false
    link_libraries := []
    is_stdlib := true
    builtin_default := false
    required := false
    variant := none }

theorem claim_C3_witness :
    (builderFallbackSample.resources_policy =
        PythonResourcesPolicy.preferInMemoryFallbackFilesystemRelative "lib" ∧
      builderFallbackSample.link_mode = LibpythonLinkMode.dynamic ∧
      emDynamicSample.builtin_default = false ∧
      mapLookup emDynamicSample.name
        builderFallbackSample.resources.collector.resources = none) ∧
      ((∀ b', builderFallbackSample.add_in_memory_distribution_extension_module (fun _ => none)
            emDynamicSample = Except.ok b' →
          builderFallbackSample.add_distribution_extension_module (fun _ => none)
              emDynamicSample = Except.ok b' ∧
            (inMemExtView b'.resources.collector emDynamicSample.name).isSome = true ∧
            relExtView b'.resources.collector emDynamicSample.name = none) ∧
        (∀ e1, builderFallbackSample.add_in_memory_distribution_extension_module (fun _ => none)
            emDynamicSample = Except.error e1 →
          builderFallbackSample.add_distribution_extension_module (fun _ => none)
              emDynamicSample =
              builderFallbackSample.add_relative_path_distribution_extension_module "lib"
                emDynamicSample ∧
            (∀ b', builderFallbackSample.add_relative_path_distribution_extension_module "lib"
                emDynamicSample = Except.ok b' →
              (relExtView b'.resources.collector emDynamicSample.name).isSome = true ∧
                inMemExtView b'.resources.collector emDynamicSample.name = none) ∧
            (∀ e2, builderFallbackSample.add_relative_path_distribution_extension_module "lib"
                emDynamicSample = Except.error e2 →
              builderFallbackSample.add_distribution_extension_module (fun _ => none)
                  emDynamicSample = Except.error e2))) :=
  ⟨⟨rfl, rfl, rfl, rfl⟩,
    claim_C3_prefer_in_memory_fallback (fun _ => none) builderFallbackSample emDynamicSample
      "lib" rfl rfl rfl rfl⟩

/-- C5: when a distribution extension module is successfully added for
in-memory loading, every dynamic-library dependency declared in its link
requirements is also registered in the collection as a standalone
in-memory shared-library resource. -/
theorem claim_C5_dynamic_deps_registered (fs : String → Option (List Nat))
    (r r' : PrePackagedResources) (em : PythonExtensionModule) (link : LibraryDependency)
    (sl : DataLocation)
    (hok : PrePackagedResources.add_in_memory_distribution_extension_module fs r em =
      Except.ok r')
    (hmem : link ∈ em.link_libraries) (hdyn : link.dynamic_library = some sl) :
    ∃ pr, mapLookup link.name r'.collector.resources = some pr ∧
      pr.in_memory_shared_library.isSome = true := by
  obtain ⟨_, _, h3, _⟩ := add_in_memory_distribution_ok_views hok
  have hview := h3 link hmem sl hdyn
  rw [shlibView] at hview
  cases hl : mapLookup link.name r'.collector.resources with
  | none => rw [hl] at hview; simp at hview
  | some pr =>
    rw [hl] at hview
    exact ⟨pr, rfl, by simpa using hview⟩

/-- A dynamic-library link dependency. -/
def depSample : LibraryDependency :=
  { name := "libssl"
    static_library := none
    dynamic_library := some (DataLocation.memory [3])
    framework := false
    system := false }

/-- An extension module with shared-library bytes and one dynamic-library
dependency. -/
def emDepSample : PythonExtensionModule :=
  { name := "ssl_mod"
    init_fn := none
    extension_file_suffix := ".so"
    shared_library := some (DataLocation.memory [9])
    object_file_data := []
    is_package := false
    link_libraries := [depSample]
    is_stdlib := false
    builtin_default := false
    required := false
    variant := none }

theorem claim_C5_witness :
    ∃ r', ((PrePackagedResources.new PythonResourcesPolicy.inMemoryOnly
          "cpython-37").add_in_memory_distribution_extension_module (fun _ => none)
          emDepSample = Except.ok r' ∧
        depSample ∈ emDepSample.link_libraries ∧
        depSample.dynamic_library = some (DataLocation.memory [3])) ∧
      ∃ pr, mapLookup depSample.name r'.collector.resources = some pr ∧
        pr.in_memory_shared_library.isSome = true := by
  cases hrun : (PrePackagedResources.new PythonResourcesPolicy.inMemoryOnly
      "cpython-37").add_in_memory_distribution_extension_module (fun _ => none) emDepSample with
  | error e =>
    rw [PrePackagedResources.add_in_memory_distribution_extension_module] at hrun
    simp [emDepSample, DataLocation.resolve] at hrun
  | ok r' =>
    exact ⟨r', ⟨rfl, List.mem_singleton.mpr rfl, rfl⟩,
      claim_C5_dynamic_deps_registered (fun _ => none)
        (PrePackagedResources.new PythonResourcesPolicy.inMemoryOnly "cpython-37") r'
        emDepSample depSample (DataLocation.memory [3]) hrun (List.mem_singleton.mpr rfl) rfl⟩

theorem linkingInfo_foldl_object_files (l : List (String × ExtensionModuleBuildState))
    (init : LibpythonLinkingInfo) :
    (List.foldl linkingInfoStep init l).object_files =
      init.object_files ++ (l.map (fun p => p.2.link_object_files)).flatten := by
  induction l generalizing init with
  | nil => simp
  | cons q rest ih =>
    rw [List.foldl_cons, ih]
    simp [linkingInfoStep, List.append_assoc]

theorem mem_linkingInfo_foldl (f : LibpythonLinkingInfo → Finset String)
    (g : String × ExtensionModuleBuildState → Finset String)
    (hstep : ∀ info p, f (linkingInfoStep info p) = f info ∪ g p)
    (l : List (String × ExtensionModuleBuildState)) (init : LibpythonLinkingInfo) (x : String) :
    x ∈ f (List.foldl linkingInfoStep init l) ↔ x ∈ f init ∨ ∃ p ∈ l, x ∈ g p := by
  induction l generalizing init with
  | nil => simp
  | cons q rest ih =>
    rw [List.foldl_cons, ih, hstep]
    simp only [Finset.mem_union, List.mem_cons]
    constructor
    · rintro ((h | h) | ⟨p, hp, h⟩)
      · exact Or.inl h
      · exact Or.inr ⟨q, Or.inl rfl, h⟩
      · exact Or.inr ⟨p, Or.inr hp, h⟩
    · rintro (h | ⟨p, hp | hp, h⟩)
      · exact Or.inl (Or.inl h)
      · subst hp; exact Or.inl (Or.inr h)
      · exact Or.inr ⟨p, hp, h⟩

/-- C7: `resolve_libpython_linking_info` aggregates across all
statically-linked extension modules: the object-file list is the
concatenation, in map-iteration order, of the per-module object-file lists
(so its length is the sum of the per-module counts); static and dynamic
library names are merged into the single `link_libraries` set (a set, so
duplicate-free); frameworks, system libraries and external libraries
remain three separate sets. -/
theorem claim_C7_resolve_linking_info_aggregates (r : EmbeddedPythonResources) (x : String) :
    (r.resolve_libpython_linking_info).object_files =
        (r.extension_modules.map (fun p => p.2.link_object_files)).flatten ∧
      (r.resolve_libpython_linking_info).object_files.length =
        (r.extension_modules.map (fun p => p.2.link_object_files.length)).sum ∧
      ((x ∈ (r.resolve_libpython_linking_info).link_libraries) ↔
        ∃ p ∈ r.extension_modules,
          x ∈ p.2.link_static_libraries ∨ x ∈ p.2.link_dynamic_libraries) ∧
      ((x ∈ (r.resolve_libpython_linking_info).link_frameworks) ↔
        ∃ p ∈ r.extension_modules, x ∈ p.2.link_frameworks) ∧
      ((x ∈ (r.resolve_libpython_linking_info).link_system_libraries) ↔
        ∃ p ∈ r.extension_modules, x ∈ p.2.link_system_libraries) ∧
      ((x ∈ (r.resolve_libpython_linking_info).link_libraries_external) ↔
        ∃ p ∈ r.extension_modules, x ∈ p.2.link_external_libraries) := by
  have hobj := linkingInfo_foldl_object_files r.extension_modules
    { object_files := []
      link_libraries := ∅
      link_frameworks := ∅
      link_system_libraries := ∅
      link_libraries_external := ∅ }
  refine ⟨?_, ?_, ?_, ?_, ?_, ?_⟩
  · simpa [EmbeddedPythonResources.resolve_libpython_linking_info] using hobj
  · rw [EmbeddedPythonResources.resolve_libpython_linking_info, hobj]
    simp [List.length_flatten, List.map_map, Function.comp_def]
  · rw [EmbeddedPythonResources.resolve_libpython_linking_info,
      mem_linkingInfo_foldl (fun info => info.link_libraries)
        (fun p => p.2.link_static_libraries ∪ p.2.link_dynamic_libraries)
        (fun info p => by simp [linkingInfoStep, Finset.union_assoc])]
    simp [Finset.mem_union]
  · rw [EmbeddedPythonResources.resolve_libpython_linking_info,
      mem_linkingInfo_foldl (fun info => info.link_frameworks)
        (fun p => p.2.link_frameworks) (fun info p => rfl)]
    simp
  · rw [EmbeddedPythonResources.resolve_libpython_linking_info,
      mem_linkingInfo_foldl (fun info => info.link_system_libraries)
        (fun p => p.2.link_system_libraries) (fun info p => rfl)]
    simp
  · rw [EmbeddedPythonResources.resolve_libpython_linking_info,
      mem_linkingInfo_foldl (fun info => info.link_libraries_external)
        (fun p => p.2.link_external_libraries) (fun info p => rfl)]
    simp

/-- C8: filtering against an allow-set of resource names keeps exactly the
resource records whose `name` field is in the set and exactly the
extension-module build states whose key is in the set (kept entries are
unchanged, being membership of the original list), and the operation is
idempotent. -/
theorem claim_C8_filter_exact_and_idempotent (resource_names : List String)
    (r : PrePackagedResources) :
    (∀ k p, ((k, p) ∈
        (PrePackagedResources.filter_from_files resource_names r).collector.resources ↔
      ((k, p) ∈ r.collector.resources ∧ resource_names.contains p.name = true))) ∧
      (∀ k st, ((k, st) ∈
          (PrePackagedResources.filter_from_files resource_names r).extension_module_states ↔
        ((k, st) ∈ r.extension_module_states ∧ resource_names.contains k = true))) ∧
      PrePackagedResources.filter_from_files resource_names
          (PrePackagedResources.filter_from_files resource_names r) =
        PrePackagedResources.filter_from_files resource_names r := by
  refine ⟨?_, ?_, ?_⟩
  · intro k p
    simp [PrePackagedResources.filter_from_files, List.mem_filter]
  · intro k st
    simp [PrePackagedResources.filter_from_files, List.mem_filter]
  · simp [PrePackagedResources.filter_from_files, List.filter_filter, Bool.and_self]

theorem mem_keys_nodup_eq {α : Type} {l : List (String × α)}
    (hnodup : (l.map Prod.fst).Nodup) {k : String} {v v' : α}
    (h1 : (k, v) ∈ l) (h2 : (k, v') ∈ l) : v = v' := by
  induction l with
  | nil => cases h1
  | cons p rest ih =>
    simp only [List.map_cons, List.nodup_cons] at hnodup
    rcases List.mem_cons.mp h1 with e1 | m1
    · rcases List.mem_cons.mp h2 with e2 | m2
      · exact congrArg Prod.snd (e1.trans e2.symm)
      · exfalso
        apply hnodup.1
        rw [← e1]
        exact List.mem_map.mpr ⟨(k, v'), m2, rfl⟩
    · rcases List.mem_cons.mp h2 with e2 | m2
      · exfalso
        apply hnodup.1
        rw [← e2]
        exact List.mem_map.mpr ⟨(k, v), m1, rfl⟩
      · exact ih hnodup.2 m1 m2

/-- C10: `builtin_extensions()` returns a `(name, init_fn)` pair for a
statically-linked extension module exactly when its recorded `init_fn` is
present; a module whose build state has `init_fn = none` contributes no
inittab entry even though it remains in the build-state map (hypothesis
`hmem`). -/
theorem claim_C10_builtin_extensions_requires_init_fn (r : EmbeddedPythonResources)
    (name : String) (st : ExtensionModuleBuildState)
    (hnodup : (r.extension_modules.map Prod.fst).Nodup)
    (hmem : (name, st) ∈ r.extension_modules) :
    ∀ fn, ((name, fn) ∈ r.builtin_extensions ↔ st.init_fn = some fn) := by
  intro fn
  rw [EmbeddedPythonResources.builtin_extensions]
  constructor
  · intro h
    obtain ⟨p, hp, hf⟩ := List.mem_filterMap.mp h
    cases hpi : p.2.init_fn with
    | none => rw [hpi] at hf; cases hf
    | some g =>
      rw [hpi] at hf
      simp only [Option.some.injEq, Prod.mk.injEq] at hf
      obtain ⟨hf1, hf2⟩ := hf
      have hmem2 : (name, p.2) ∈ r.extension_modules := by
        rw [← hf1]
        exact hp
      have hst : p.2 = st := mem_keys_nodup_eq hnodup hmem2 hmem
      rw [← hst, hpi, hf2]
  · intro h
    refine List.mem_filterMap.mpr ⟨(name, st), hmem, ?_⟩
    rw [h]

/-- A build state carrying an initialization function. -/
def stWithInit : ExtensionModuleBuildState :=
  { init_fn := some "PyInit_alpha"
    link_object_files := [DataLocation.memory [1]]
    link_frameworks := ∅
    link_system_libraries := ∅
    link_static_libraries := ∅
    link_dynamic_libraries := ∅
    link_external_libraries := ∅ }

/-- A build state with no initialization function. -/
def stNoInit : ExtensionModuleBuildState :=
  { init_fn := none
    link_object_files := [DataLocation.memory [2]]
    link_frameworks := ∅
    link_system_libraries := ∅
    link_static_libraries := ∅
    link_dynamic_libraries := ∅
    link_external_libraries := ∅ }

/-- Embedded resources with one initializable and one non-initializable
builtin extension module. -/
def eprSample : EmbeddedPythonResources :=
  { extension_modules := [("alpha", stWithInit), ("beta", stNoInit)] }

theorem claim_C10_witness :
    ((eprSample.extension_modules.map Prod.fst).Nodup ∧
      ("beta", stNoInit) ∈ eprSample.extension_modules) ∧
      ∀ fn, (("beta", fn) ∈ eprSample.builtin_extensions ↔ stNoInit.init_fn = some fn) :=
  ⟨⟨by decide, by simp [eprSample]⟩,
    claim_C10_builtin_extensions_requires_init_fn eprSample "beta" stNoInit (by decide)
      (by simp [eprSample])⟩

theorem processEntries_error_of_entry_error {iw : Bool} {abs : List String}
    {entries : List TarEntry} {e : TarEntry} {msg : String}
    (hmem : e ∈ entries) (he : processEntry iw abs e = Except.error msg) :
    ∃ msg', processEntries iw abs entries = Except.error msg' := by
  induction entries with
  | nil => cases hmem
  | cons q rest ih =>
    rcases List.mem_cons.mp hmem with h | h
    · subst h
      exact ⟨msg, by simp only [processEntries, he]⟩
    · cases hq : processEntry iw abs q with
      | error m => exact ⟨m, by simp only [processEntries, hq]⟩
      | ok o =>
        obtain ⟨m', hm'⟩ := ih h
        cases o with
        | some sd => exact ⟨m', by simp only [processEntries, hq, hm']⟩
        | none => exact ⟨m', by simp only [processEntries, hq, hm']⟩

/-- C4 counterexample: on a target where `cfg!(target_family = "windows")`
is false, a symlink archive entry whose resolved destination escapes the
extraction root is handed to the ordinary `unpack_in` path and extraction
succeeds — it does not fail with the "malicious symlink detected in
archive" integrity error, contradicting the claim's universal statement
over archive entries. -/
theorem claim_C4_counterexample :
    (TarEntry.mk ["x"] (some ["..", ".."])).link_name.isSome = true ∧
      parseDot (["root"] ++ (TarEntry.mk ["x"] (some ["..", ".."])).path) ≠ [] ∧
      List.isPrefixOf ["root"]
        (parseDot ((parseDot (["root"] ++ (TarEntry.mk ["x"] (some ["..", ".."])).path)).dropLast
          ++ ["..", ".."])) = false ∧
      fromTarExtract false ["root"] [TarEntry.mk ["x"] (some ["..", ".."])] =
        Except.ok [ExtractAction.unpacked ["x"]] :=
  ⟨rfl, by decide, by decide, rfl⟩

/-- C4 (amended): on Windows targets — where symlink entries are recorded
and later replayed as plain file copies — every archive entry that is a
symbolic link has its destination resolved to an absolute dot-canonicalized
path, and extraction fails with the integrity error "malicious symlink
detected in archive" whenever the resolved destination does not lie
underneath the extraction root; the failed extraction produces no actions
at all, so no symlink or copied file appears at that destination.  (On
other targets symlink entries are delegated to the ordinary tar unpacking
path and this check is not performed, which is what the counterexample
exhibits.) -/
theorem claim_C4_amended_malicious_symlink (absolutePath : List String)
    (entries : List TarEntry) (e : TarEntry) (link_name : List String)
    (hmem : e ∈ entries) (hlink : e.link_name = some link_name)
    (hparent : parseDot (absolutePath ++ e.path) ≠ [])
    (hesc : List.isPrefixOf absolutePath
      (parseDot ((parseDot (absolutePath ++ e.path)).dropLast ++ link_name)) = false) :
    processEntry true absolutePath e =
        Except.error "malicious symlink detected in archive" ∧
      ∃ msg, fromTarExtract true absolutePath entries = Except.error msg := by
  have hpe : processEntry true absolutePath e =
      Except.error "malicious symlink detected in archive" := by
    rw [processEntry]
    simp [hlink, hparent, hesc]
  refine ⟨hpe, ?_⟩
  obtain ⟨m, hm⟩ := processEntries_error_of_entry_error hmem hpe
  exact ⟨m, by rw [fromTarExtract, hm]⟩

theorem claim_C4_witness :
    ((TarEntry.mk ["evil"] (some ["..", "..", "etc"])) ∈
        [TarEntry.mk ["evil"] (some ["..", "..", "etc"])] ∧
      (TarEntry.mk ["evil"] (some ["..", "..", "etc"])).link_name =
        some ["..", "..", "etc"] ∧
      parseDot (["root"] ++ (TarEntry.mk ["evil"] (some ["..", "..", "etc"])).path) ≠ [] ∧
      List.isPrefixOf ["root"]
        (parseDot ((parseDot (["root"] ++
          (TarEntry.mk ["evil"] (some ["..", "..", "etc"])).path)).dropLast ++
          ["..", "..", "etc"])) = false) ∧
      (processEntry true ["root"] (TarEntry.mk ["evil"] (some ["..", "..", "etc"])) =
          Except.error "malicious symlink detected in archive" ∧
        ∃ msg, fromTarExtract true ["root"]
          [TarEntry.mk ["evil"] (some ["..", "..", "etc"])] = Except.error msg) :=
  ⟨⟨List.mem_singleton.mpr rfl, rfl, by decide, by decide⟩,
    claim_C4_amended_malicious_symlink ["root"]
      [TarEntry.mk ["evil"] (some ["..", "..", "etc"])]
      (TarEntry.mk ["evil"] (some ["..", "..", "etc"])) ["..", "..", "etc"]
      (List.mem_singleton.mpr rfl) rfl (by decide) (by decide)⟩
